import Mathlib

/-!
Verification of the hikari client library's error hierarchy
(`hikari/errors.py`), signal-handling glue (`hikari/internal/signals.py`)
and the spec's rate-limiter bucket model.

Python strings are modelled as Lean `String`; Python `float` values that
are only stored and rendered are modelled as `Rat`; numeric rendering is
abstracted by Lean's `toString` (the claims under study do not depend on
the exact numeral format).  Python attribute assignment in `__init__`
bodies is modelled by structure construction mirroring each assignment.
-/

namespace Hikari

/-! ## Model of `http.HTTPStatus` members used by `hikari/errors.py`

A member carries its Python enum `name` and integer `value`. -/

structure HTTPStatus where
  name : String
  value : Int
deriving DecidableEq

def HTTPStatus.BAD_REQUEST : HTTPStatus :=
  { name := "BAD_REQUEST", value := 400 }

def HTTPStatus.UNAUTHORIZED : HTTPStatus :=
  { name := "UNAUTHORIZED", value := 401 }

def HTTPStatus.FORBIDDEN : HTTPStatus :=
  { name := "FORBIDDEN", value := 403 }

def HTTPStatus.NOT_FOUND : HTTPStatus :=
  { name := "NOT_FOUND", value := 404 }

/-- Model of `typing.Union[http.HTTPStatus, int]`: a recognised status
member, or a bare integer outside the HTTP specification's range
(`errors.py` lines 233-238). -/
inductive StatusV where
  | known (s : HTTPStatus)
  | unknown (n : Int)
deriving DecidableEq

/-- Python `str.title` on a single word made of letters: first character
upper-cased, the rest lower-cased. -/
def titleCaseWord (w : String) : String :=
  match w.data with
  | [] => ""
  | c :: cs => String.mk (c.toUpper :: cs.map Char.toLower)

/-- Model of `self.status.name.replace("_", " ").title()` for enum names
made of upper-case letters and underscores (`errors.py` line 269). -/
def pyNameTitle (s : String) : String :=
  String.intercalate " " (((s.replace "_" " ").splitOn " ").map titleCaseWord)

/-- The `name_value` string computed by `HTTPResponseError.__str__`
(`errors.py` lines 268-273). -/
def StatusV.nameValue : StatusV → String
  | .known s => pyNameTitle s.name ++ " " ++ toString s.value
  | .unknown n => "Unknown Status " ++ toString n

/-- Model of `data_binding.Headers`: a header-name/value mapping. -/
def Headers : Type := List (String × String)

/-- Model of JSON data (`data_binding.JSONObject` values). -/
inductive JSONValue where
  | str (s : String)
  | num (q : Rat)
  | bool (b : Bool)
  | null
  | arr (xs : List JSONValue)
  | obj (fields : List (String × JSONValue))

/-! ## `HTTPError` and `HTTPResponseError` (`errors.py` lines 216-291) -/

structure HTTPError where
  message : String

/-- `HTTPError.__init__` (`errors.py` lines 222-224). -/
def HTTPError.init (message : String) : HTTPError :=
  { message := message }

/-- `HTTPResponseError` (`errors.py` lines 227-291).  `raw_body` is
`typing.Any` in the source and is consumed only through its rendering
(utf-8 decode when that succeeds, else the `str()` fallback, lines
283-286); it is modelled here by that rendered text. -/
structure HTTPResponseError extends HTTPError where
  url : String
  status : StatusV
  headers : Headers
  raw_body : String
  code : Int

/-- `HTTPResponseError.__init__` (`errors.py` lines 249-265): stores every
argument on the instance; `code` defaults to `0` and `message` to `""` at
call sites that omit them. -/
def HTTPResponseError.init (url : String) (status : StatusV) (headers : Headers)
    (raw_body : String) (code : Int) (message : String) : HTTPResponseError :=
  { toHTTPError := HTTPError.init message
    url := url
    status := status
    headers := headers
    raw_body := raw_body
    code := code }

/-- Python string slicing `s[:n]`: the first `n` code points.  A Python
`str` is a sequence of code points, modelled by the string's character
list. -/
def pySlice (s : String) (n : Nat) : String :=
  String.mk (s.data.take n)

/-- `HTTPResponseError.__str__` (`errors.py` lines 267-290).  `if
self.code:` is integer truthiness (non-zero); `if self.message:` is string
truthiness (non-empty); `body[:200]` keeps at most the first 200
characters and `chomped` records whether truncation happened. -/
def HTTPResponseError.str (e : HTTPResponseError) : String :=
  let name_value := e.status.nameValue
  let code_str := if e.code = 0 then "" else " (" ++ toString e.code ++ ")"
  let body := if e.message = "" then e.raw_body else e.message
  let chomped := 200 < body.length
  name_value ++ ":" ++ code_str ++ " '" ++ pySlice body 200 ++
    (if chomped then "..." else "") ++ "' for " ++ e.url

/-! ## The 4xx client error classes (`errors.py` lines 293-402)

`ClientHTTPResponseError` is the base marking 4xx client errors; the four
subclasses below hard-code their status in the `super().__init__` call and
accept no `status` parameter. -/

structure ClientHTTPResponseError extends HTTPResponseError

/-- `BadRequestError` (`errors.py` lines 320-364) additionally stores the
field-level `errors` mapping.  The `_cached_str` memoisation slot only
caches `__str__` output and is omitted as pure memoisation. -/
structure BadRequestError extends ClientHTTPResponseError where
  errors : Option (List (String × JSONValue))

/-- `BadRequestError.__init__` (`errors.py` lines 333-347): forwards to
`HTTPResponseError.__init__` with `status=http.HTTPStatus.BAD_REQUEST`. -/
def BadRequestError.init (url : String) (headers : Headers) (raw_body : String)
    (code : Int) (message : String)
    (errors : Option (List (String × JSONValue))) : BadRequestError :=
  { toHTTPResponseError :=
      HTTPResponseError.init url (StatusV.known HTTPStatus.BAD_REQUEST)
        headers raw_body code message
    errors := errors }

structure UnauthorizedError extends ClientHTTPResponseError

/-- `UnauthorizedError.__init__` (`errors.py` lines 370-375): status is
hard-coded to `http.HTTPStatus.UNAUTHORIZED`. -/
def UnauthorizedError.init (url : String) (headers : Headers) (raw_body : String)
    (code : Int) (message : String) : UnauthorizedError :=
  { toHTTPResponseError :=
      HTTPResponseError.init url (StatusV.known HTTPStatus.UNAUTHORIZED)
        headers raw_body code message }

structure ForbiddenError extends ClientHTTPResponseError

/-- `ForbiddenError.__init__` (`errors.py` lines 386-391): status is
hard-coded to `http.HTTPStatus.FORBIDDEN`. -/
def ForbiddenError.init (url : String) (headers : Headers) (raw_body : String)
    (code : Int) (message : String) : ForbiddenError :=
  { toHTTPResponseError :=
      HTTPResponseError.init url (StatusV.known HTTPStatus.FORBIDDEN)
        headers raw_body code message }

structure NotFoundError extends ClientHTTPResponseError

/-- `NotFoundError.__init__` (`errors.py` lines 397-402): status is
hard-coded to `http.HTTPStatus.NOT_FOUND`. -/
def NotFoundError.init (url : String) (headers : Headers) (raw_body : String)
    (code : Int) (message : String) : NotFoundError :=
  { toHTTPResponseError :=
      HTTPResponseError.init url (StatusV.known HTTPStatus.NOT_FOUND)
        headers raw_body code message }

/-! ## `ShardCloseCode` (`errors.py` lines 152-182) -/

inductive ShardCloseCode where
  | NORMAL_CLOSURE
  | GOING_AWAY
  | PROTOCOL_ERROR
  | TYPE_ERROR
  | ENCODING_ERROR
  | POLICY_VIOLATION
  | TOO_BIG
  | UNEXPECTED_CONDITION
  | UNKNOWN_ERROR
  | UNKNOWN_OPCODE
  | DECODE_ERROR
  | NOT_AUTHENTICATED
  | AUTHENTICATION_FAILED
  | ALREADY_AUTHENTICATED
  | INVALID_SEQ
  | RATE_LIMITED
  | SESSION_TIMEOUT
  | INVALID_SHARD
  | SHARDING_REQUIRED
  | INVALID_VERSION
  | INVALID_INTENT
  | DISALLOWED_INTENT
deriving DecidableEq, Fintype

/-- The integer value of each `ShardCloseCode` member (`errors.py` lines
156-177).  Close codes are non-negative, so `Nat` is faithful. -/
def ShardCloseCode.value : ShardCloseCode → Nat
  | .NORMAL_CLOSURE => 1000
  | .GOING_AWAY => 1001
  | .PROTOCOL_ERROR => 1002
  | .TYPE_ERROR => 1003
  | .ENCODING_ERROR => 1007
  | .POLICY_VIOLATION => 1008
  | .TOO_BIG => 1009
  | .UNEXPECTED_CONDITION => 1011
  | .UNKNOWN_ERROR => 4000
  | .UNKNOWN_OPCODE => 4001
  | .DECODE_ERROR => 4002
  | .NOT_AUTHENTICATED => 4003
  | .AUTHENTICATION_FAILED => 4004
  | .ALREADY_AUTHENTICATED => 4005
  | .INVALID_SEQ => 4007
  | .RATE_LIMITED => 4008
  | .SESSION_TIMEOUT => 4009
  | .INVALID_SHARD => 4010
  | .SHARDING_REQUIRED => 4011
  | .INVALID_VERSION => 4012
  | .INVALID_INTENT => 4013
  | .DISALLOWED_INTENT => 4014

/-- `ShardCloseCode.is_standard` (`errors.py` lines 179-182): Python
`(self.value // 1000) == 1`; floor division on non-negative integers is
`Nat` division. -/
def ShardCloseCode.is_standard (c : ShardCloseCode) : Bool :=
  (c.value / 1000) == 1

/-! ## `GatewayError` and `GatewayServerClosedConnectionError`
(`errors.py` lines 138-149 and 192-213) -/

structure GatewayError where
  reason : String

/-- `GatewayError.__init__` (`errors.py` lines 144-146). -/
def GatewayError.init (reason : String) : GatewayError :=
  { reason := reason }

/-- `GatewayError.__str__` (`errors.py` lines 148-149). -/
def GatewayError.str (e : GatewayError) : String :=
  e.reason

/-- `GatewayServerClosedConnectionError` (`errors.py` lines 192-213).
`code` is `typing.Union[ShardCloseCode, int]`; since `ShardCloseCode`
derives `int`, a member is modelled by its integer value, and the bare-int
branch of the union by any other integer. -/
structure GatewayServerClosedConnectionError extends GatewayError where
  code : Int
  can_reconnect : Bool

/-- `GatewayServerClosedConnectionError.__init__` (`errors.py` lines
207-210): forwards `reason` to `GatewayError.__init__` and stores `code`
and `can_reconnect`. -/
def GatewayServerClosedConnectionError.init (reason : String) (code : Int)
    (can_reconnect : Bool) : GatewayServerClosedConnectionError :=
  { toGatewayError := GatewayError.init reason
    code := code
    can_reconnect := can_reconnect }

/-- `GatewayServerClosedConnectionError.__str__` (`errors.py` lines
212-213). -/
def GatewayServerClosedConnectionError.str
    (e : GatewayServerClosedConnectionError) : String :=
  "Server closed connection with code " ++ toString e.code ++
    " (" ++ e.reason ++ ")"

/-- Modelled from the spec: the shard connection's reaction to a server
closure (the shard implementation is not among the sources; spec section
4.3 and the `can_reconnect` docstring, `errors.py` lines 199-205).  A
recoverable closure triggers a reconnect; a non-recoverable one is
propagated to the caller. -/
inductive ClosureAction where
  | reconnect
  | propagate
deriving DecidableEq

/-- Modelled from the spec: recoverable close codes reconnect, terminal
ones propagate as fatal errors to the orchestrator (spec section 4.3;
`errors.py` lines 199-205). -/
def handleServerClosure (e : GatewayServerClosedConnectionError) : ClosureAction :=
  if e.can_reconnect then ClosureAction.reconnect else ClosureAction.propagate

/-! ## `RateLimitTooLongError` (`errors.py` lines 405-474) -/

/-- Model of `routes.CompiledRoute` (`hikari/internal/routes.py` is outside
the sources): the error class only stores the route object and renders it
in its message, so it is modelled by its textual rendering. -/
structure CompiledRoute where
  render : String

/-- Python `str(bool)` rendering. -/
def pyBoolRepr (b : Bool) : String :=
  if b then "True" else "False"

/-- The message built by `RateLimitTooLongError.__init__` (`errors.py`
lines 449-453): one f-string naming the max retry-after, the route and the
is_global flag. -/
def rateLimitTooLongMessage (route : CompiledRoute) (is_global : Bool)
    (max_retry_after : Rat) : String :=
  "The request has been rejected, as you would be waiting for more than " ++
    "the max retry-after (" ++ toString max_retry_after ++ ") on route '" ++
    route.render ++ "' [is_global=" ++ pyBoolRepr is_global ++ "]"

structure RateLimitTooLongError extends HTTPError where
  route : CompiledRoute
  is_global : Bool
  retry_after : Rat
  max_retry_after : Rat
  reset_at : Rat
  limit : Option Int
  period : Option Rat

/-- `RateLimitTooLongError.__init__` (`errors.py` lines 438-460): builds
the message via `HTTPError.__init__` and stores every argument. -/
def RateLimitTooLongError.init (route : CompiledRoute) (is_global : Bool)
    (retry_after : Rat) (max_retry_after : Rat) (reset_at : Rat)
    (limit : Option Int) (period : Option Rat) : RateLimitTooLongError :=
  { toHTTPError := HTTPError.init (rateLimitTooLongMessage route is_global max_retry_after)
    route := route
    is_global := is_global
    retry_after := retry_after
    max_retry_after := max_retry_after
    reset_at := reset_at
    limit := limit
    period := period }

/-- The `remaining` property (`errors.py` lines 465-471): symbolically
always `0`. -/
def RateLimitTooLongError.remaining (_ : RateLimitTooLongError) : Nat :=
  0

/-- `RateLimitTooLongError.__str__` (`errors.py` lines 473-474). -/
def RateLimitTooLongError.str (e : RateLimitTooLongError) : String :=
  e.message

/-! ## `MissingIntentError` (`errors.py` lines 514-529)

The constructor body is `self.deleted_messages = intents`; the `intents`
annotation on the class (line 521) declares no value, so instances built
by `__init__` carry only the `deleted_messages` attribute.  The instance
is therefore modelled by its attribute dictionary.  An `Intents` flag
combination (`hikari/intents.py` is outside the sources) is an integer
bitfield, modelled as `Nat`. -/

structure MissingIntentError where
  attrs : List (String × Nat)

/-- `MissingIntentError.__init__` (`errors.py` lines 524-526): the single
assignment in the body stores the argument under the attribute name
`deleted_messages`. -/
def MissingIntentError.init (intents : Nat) : MissingIntentError :=
  { attrs := [("deleted_messages", intents)] }

/-- Python attribute lookup on the instance dictionary: `none` models the
`AttributeError` raised for a never-assigned attribute. -/
def MissingIntentError.getattr (e : MissingIntentError) (name : String) :
    Option Nat :=
  (e.attrs.find? (fun p => p.1 == name)).map Prod.snd

/-- Modelled from the spec: `Intents.split` (`hikari/intents.py` is outside
the sources) splits a flag combination into its individual flags, modelled
as the set bit positions. -/
def intentsSplit (i : Nat) : List Nat :=
  (List.range (i + 1)).filter (fun k => i.testBit k)

/-- `MissingIntentError.__str__` (`errors.py` lines 528-529): reads
`self.intents`, which `__init__` never assigns, so on any instance built by
the constructor the lookup fails with `AttributeError`. -/
def MissingIntentError.str (e : MissingIntentError) : Except String String :=
  match e.getattr "intents" with
  | none => Except.error "AttributeError"
  | some i =>
      Except.ok ("You are missing the following intent(s): " ++
        String.intercalate ", " ((intentsSplit i).map toString))

/-! ## `HikariInterrupt` and Python argument binding
(`errors.py` lines 88-103, `hikari/internal/signals.py` lines 79-103)

`HikariInterrupt.__init__` is declared `def __init__(self, *, signum: int,
signame: str)`: no parameter may be filled positionally.  The signal
handler in `signals.py` line 84 calls `errors.HikariInterrupt(signum,
signame)` with two positional arguments.  To settle what that call does we
embed Python's argument binding for such a signature. -/

structure HikariInterrupt where
  signum : Int
  signame : String
deriving DecidableEq

/-- A Python runtime value passed as a call argument. -/
inductive PyVal where
  | int (n : Int)
  | str (s : String)
deriving DecidableEq

/-- A Python `__init__` signature with positional-or-keyword parameters
followed by a bare `*` and keyword-only parameters (no `*args`, no
defaults). -/
structure KwOnlyInitSig where
  posParams : List String
  kwOnlyParams : List String

/-- Python binding of call arguments against such a signature: too many
positional arguments, an unexpected keyword, a duplicated parameter or a
missing required parameter each raise `TypeError`; otherwise the bound
environment is produced. -/
def bindInitArgs (sig : KwOnlyInitSig) (pos : List PyVal)
    (kw : List (String × PyVal)) : Except String (List (String × PyVal)) :=
  if sig.posParams.length < pos.length then
    Except.error "TypeError: too many positional arguments"
  else
    let boundPos := sig.posParams.zip pos
    if kw.any (fun p => !((sig.posParams ++ sig.kwOnlyParams).contains p.1)) then
      Except.error "TypeError: unexpected keyword argument"
    else if kw.any (fun p => (boundPos.map Prod.fst).contains p.1) then
      Except.error "TypeError: multiple values for argument"
    else
      let env := boundPos ++ kw
      if (sig.posParams ++ sig.kwOnlyParams).all
          (fun n => (env.map Prod.fst).contains n) then
        Except.ok env
      else
        Except.error "TypeError: missing required argument"

/-- The signature of `HikariInterrupt.__init__` (`errors.py` line 97):
`self` aside, zero positional parameters and the keyword-only parameters
`signum` and `signame`. -/
def HikariInterrupt.initSig : KwOnlyInitSig :=
  { posParams := []
    kwOnlyParams := ["signum", "signame"] }

/-- Running the body of `HikariInterrupt.__init__` (`errors.py` lines
97-100) on a bound environment: assigns `self.signum` and `self.signame`
from the bound parameters. -/
def HikariInterrupt.initBody (env : List (String × PyVal)) :
    Except String HikariInterrupt :=
  match (env.find? (fun p => p.1 == "signum")).map Prod.snd,
      (env.find? (fun p => p.1 == "signame")).map Prod.snd with
  | some (PyVal.int n), some (PyVal.str s) =>
      Except.ok { signum := n, signame := s }
  | _, _ => Except.error "TypeError: bad argument types"

/-- The construction `errors.HikariInterrupt(signum, signame)` exactly as
written in `interrupt_handler` (`signals.py` line 84): two positional
arguments, no keywords. -/
def constructInterruptPositional (signum : Int) (signame : String) :
    Except String HikariInterrupt :=
  match bindInitArgs HikariInterrupt.initSig
      [PyVal.int signum, PyVal.str signame] [] with
  | Except.error e => Except.error e
  | Except.ok env => HikariInterrupt.initBody env

/-- The construction `errors.HikariInterrupt(signum=signum,
signame=signame)` that the keyword-only signature requires. -/
def constructInterruptKeyword (signum : Int) (signame : String) :
    Except String HikariInterrupt :=
  match bindInitArgs HikariInterrupt.initSig []
      [("signum", PyVal.int signum), ("signame", PyVal.str signame)] with
  | Except.error e => Except.error e
  | Except.ok env => HikariInterrupt.initBody env

/-! ## `handle_interrupts` (`signals.py` lines 45-133)

Sequential trace model of one use of the context manager: signal
deliveries are interleaved into the body as events, followed by the body's
own outcome.  Each Python exception value is modelled with its class name
and whether the class derives `Exception` (an exception that derives only
`BaseException`, such as a user-raised `KeyboardInterrupt`, is not caught
by the `except Exception` clause at line 115). -/

structure PyExn where
  name : String
  isException : Bool
deriving DecidableEq

/-- The `TypeError` raised when `interrupt_handler` constructs the
interrupt positionally; `TypeError` derives `Exception`. -/
def typeErrorTooManyArgs : PyExn :=
  { name := "TypeError", isException := true }

/-- A user-raised `KeyboardInterrupt`: derives `BaseException` only. -/
def keyboardInterruptExn : PyExn :=
  { name := "KeyboardInterrupt", isException := false }

/-- A `HikariInterrupt` raised out of the manager; it derives both
`KeyboardInterrupt` and `HikariError` (hence `Exception`). -/
def interruptExn (_ : HikariInterrupt) : PyExn :=
  { name := "HikariInterrupt", isException := true }

/-- Observable effects of one `handle_interrupts` use, in order. -/
inductive Effect where
  | callbackScheduled
  | callbackRun
  | raiseOut (e : PyExn)
  | exitNormally
deriving DecidableEq

/-- Mutable state of the manager: the `interrupt` and
`exit_callback_called` locals (`signals.py` lines 76-77). -/
structure HIState where
  interrupt : Option HikariInterrupt
  exit_callback_called : Bool

/-- `interrupt_handler` (`signals.py` lines 79-103) run for one delivered
signal: constructs the interrupt (line 84), records it, and schedules
`exit_callback` thread-safely when the flag is unset (lines 101-103).  The
returned exception, if any, is the one the handler raises into the main
thread (CPython surfaces a signal-handler exception inside the body). -/
def interrupt_handler (st : HIState) (signum : Int) (signame : String) :
    HIState × List Effect × Option PyExn :=
  match constructInterruptPositional signum signame with
  | Except.error _ => (st, [], some typeErrorTooManyArgs)
  | Except.ok itr =>
      let st1 : HIState := { st with interrupt := some itr }
      if st1.exit_callback_called then
        (st1, [], none)
      else
        ({ st1 with exit_callback_called := true },
          [Effect.callbackScheduled], none)

/-- A step observed while the body runs: a delivered `SIGINT`/`SIGTERM`
(`signame` is `signal.strsignal(signum)`). -/
inductive BodyStep where
  | signal (signum : Int) (signame : String)

/-- How the body itself ends, absent handler interference. -/
inductive BodyOutcome where
  | completes
  | raises (e : PyExn)

/-- Running the body: signal deliveries are processed in order; an
exception escaping the handler aborts the body with that exception. -/
def runBody (st : HIState) (steps : List BodyStep) (outcome : BodyOutcome) :
    HIState × List Effect × BodyOutcome :=
  match steps with
  | [] => (st, [], outcome)
  | BodyStep.signal n s :: rest =>
      match interrupt_handler st n s with
      | (st1, effs, some e) => (st1, effs, BodyOutcome.raises e)
      | (st1, effs, none) =>
          let r := runBody st1 rest outcome
          (r.1, effs ++ r.2.1, r.2.2)

/-- One full use of `handle_interrupts` (`signals.py` lines 45-133) as the
ordered list of its observable effects.  The `enabled=False` path is the
no-op manager (lines 70-73); otherwise the body runs under the installed
handler, the `except Exception` clause (lines 115-120) runs the callback
to completion and re-raises, and the `finally` clause (lines 122-132)
re-raises the recorded interrupt, replacing any propagating exception. -/
def handle_interrupts (enabled : Bool) (steps : List BodyStep)
    (outcome : BodyOutcome) : List Effect :=
  if !enabled then
    match outcome with
    | BodyOutcome.completes => [Effect.exitNormally]
    | BodyOutcome.raises e => [Effect.raiseOut e]
  else
    let st0 : HIState := { interrupt := none, exit_callback_called := false }
    let r := runBody st0 steps outcome
    let st := r.1
    let effs := r.2.1
    match r.2.2 with
    | BodyOutcome.completes =>
        match st.interrupt with
        | some itr => effs ++ [Effect.raiseOut (interruptExn itr)]
        | none => effs ++ [Effect.exitNormally]
    | BodyOutcome.raises e =>
        if e.isException then
          let extra :=
            if !st.exit_callback_called then [Effect.callbackRun] else []
          match st.interrupt with
          | some itr => effs ++ extra ++ [Effect.raiseOut (interruptExn itr)]
          | none => effs ++ extra ++ [Effect.raiseOut e]
        else
          match st.interrupt with
          | some itr => effs ++ [Effect.raiseOut (interruptExn itr)]
          | none => effs ++ [Effect.raiseOut e]

/-- Whether an effect is an invocation of the exit callback (either the
thread-safe scheduling from the handler or the `run_until_complete` in the
`except` clause). -/
def Effect.isCallback : Effect → Bool
  | Effect.callbackScheduled => true
  | Effect.callbackRun => true
  | _ => false

/-- Number of exit-callback invocations in a trace. -/
def callbackCount (effs : List Effect) : Nat :=
  (effs.filter Effect.isCallback).length

/-- Whether an effect is an exception propagating out of the manager. -/
def Effect.isRaiseOut : Effect → Bool
  | Effect.raiseOut _ => true
  | _ => false

/-- Whether the callback was run to completion strictly before the first
exception propagated out of the manager. -/
def callbackRunBeforePropagation (effs : List Effect) : Bool :=
  (effs.takeWhile (fun x => ! x.isRaiseOut)).contains Effect.callbackRun

/-- Whether an exception propagates out of the manager at all. -/
def propagatesOut (effs : List Effect) : Bool :=
  effs.any Effect.isRaiseOut

/-! ## Rate limiter bucket

Modelled from the spec: the per-bucket gate of section 4.1 (the
`rate_limits`/`buckets` implementation is not among the sources).  "Each
bucket tracks remaining budget and reset-at.  A request may proceed only
if remaining > 0 or reset-at has passed (which first replenishes remaining
to capacity).  Acquiring decrements remaining optimistically."  Times are
modelled as natural-number instants; a reset window is the span between
two replenishments. -/

structure Bucket where
  capacity : Nat
  remaining : Nat
  reset_at : Nat
  period : Nat
deriving DecidableEq

/-- Modelled from the spec: replenish the budget to capacity once reset-at
has passed, starting the next window. -/
def Bucket.refresh (b : Bucket) (now : Nat) : Bucket :=
  if b.reset_at ≤ now then
    { b with remaining := b.capacity, reset_at := now + b.period }
  else
    b

/-- Modelled from the spec: one acquisition attempt at time `now`; admits
exactly when budget remains after the possible replenishment, decrementing
the budget optimistically. -/
def Bucket.acquire (b : Bucket) (now : Nat) : Bool × Bucket :=
  let b1 := b.refresh now
  if 0 < b1.remaining then
    (true, { b1 with remaining := b1.remaining - 1 })
  else
    (false, b1)

/-- Run a sequence of acquisition attempts, grouping the admitted counts by
reset window: a replenishment closes the current window's count and starts
the next one (whose count includes the current attempt). -/
def runWindows (b : Bucket) (ts : List Nat) (cur : Nat) : List Nat :=
  match ts with
  | [] => [cur]
  | t :: rest =>
      let r := b.acquire t
      let admitted : Nat := if r.1 then 1 else 0
      if b.reset_at ≤ t then
        cur :: runWindows r.2 rest admitted
      else
        runWindows r.2 rest (cur + admitted)

/-! ## Theorems -/

/-- Claim C3: every constructed `BadRequestError` has status 400
(BAD_REQUEST), every `UnauthorizedError` 401, every `ForbiddenError` 403
and every `NotFoundError` 404, for all values of the remaining constructor
arguments (none of the four constructors accepts a status parameter — see
their signatures above); all four return types extend
`ClientHTTPResponseError`, the 4xx base, and the four statuses lie in the
4xx range; `BadRequestError` additionally carries the field-level errors
mapping passed at construction. -/
theorem claim_C3_client_error_statuses (url : String) (headers : Headers)
    (raw_body : String) (code : Int) (message : String)
    (errs : Option (List (String × JSONValue))) :
    (BadRequestError.init url headers raw_body code message errs).status
      = StatusV.known HTTPStatus.BAD_REQUEST ∧
    (BadRequestError.init url headers raw_body code message errs).errors = errs ∧
    (UnauthorizedError.init url headers raw_body code message).status
      = StatusV.known HTTPStatus.UNAUTHORIZED ∧
    (ForbiddenError.init url headers raw_body code message).status
      = StatusV.known HTTPStatus.FORBIDDEN ∧
    (NotFoundError.init url headers raw_body code message).status
      = StatusV.known HTTPStatus.NOT_FOUND ∧
    HTTPStatus.BAD_REQUEST.value = 400 ∧
    HTTPStatus.UNAUTHORIZED.value = 401 ∧
    HTTPStatus.FORBIDDEN.value = 403 ∧
    HTTPStatus.NOT_FOUND.value = 404 ∧
    (400 ≤ HTTPStatus.BAD_REQUEST.value ∧ HTTPStatus.BAD_REQUEST.value ≤ 499) ∧
    (400 ≤ HTTPStatus.UNAUTHORIZED.value ∧ HTTPStatus.UNAUTHORIZED.value ≤ 499) ∧
    (400 ≤ HTTPStatus.FORBIDDEN.value ∧ HTTPStatus.FORBIDDEN.value ≤ 499) ∧
    (400 ≤ HTTPStatus.NOT_FOUND.value ∧ HTTPStatus.NOT_FOUND.value ≤ 499) :=
  ⟨rfl, rfl, rfl, rfl, rfl, rfl, rfl, rfl, rfl,
    by decide, by decide, by decide, by decide⟩

/-- Claim C4: for every `ShardCloseCode` member, `is_standard` returns true
exactly when the member's integer value lies in the 1000-1999 range, and in
particular every member with value 4000 or above reports
`is_standard = false`. -/
theorem claim_C4_is_standard_range :
    (∀ c : ShardCloseCode,
      c.is_standard = true ↔ (1000 ≤ c.value ∧ c.value ≤ 1999)) ∧
    (∀ c : ShardCloseCode, 4000 ≤ c.value → c.is_standard = false) := by
  constructor
  · decide
  · decide

/-- Witness for claim C4 at the concrete member `UNKNOWN_ERROR` (4000). -/
theorem claim_C4_witness :
    4000 ≤ ShardCloseCode.UNKNOWN_ERROR.value ∧
    ShardCloseCode.UNKNOWN_ERROR.is_standard = false :=
  ⟨by decide,
    claim_C4_is_standard_range.2 ShardCloseCode.UNKNOWN_ERROR (by decide)⟩

/-- Claim C5: a `RateLimitTooLongError` constructed from route `r`,
is_global `g`, retry_after `w`, max_retry_after `m`, reset_at `t`, limit
`l` and period `p` has attributes equal to exactly those arguments, and its
`__str__` equals its message, which names the maximum retry-after `m`, the
route `r` and the is_global flag `g`. -/
theorem claim_C5_rate_limit_too_long_attributes (r : CompiledRoute)
    (g : Bool) (w m t : Rat) (l : Option Int) (p : Option Rat) :
    (RateLimitTooLongError.init r g w m t l p).route = r ∧
    (RateLimitTooLongError.init r g w m t l p).is_global = g ∧
    (RateLimitTooLongError.init r g w m t l p).retry_after = w ∧
    (RateLimitTooLongError.init r g w m t l p).max_retry_after = m ∧
    (RateLimitTooLongError.init r g w m t l p).reset_at = t ∧
    (RateLimitTooLongError.init r g w m t l p).limit = l ∧
    (RateLimitTooLongError.init r g w m t l p).period = p ∧
    (RateLimitTooLongError.init r g w m t l p).str
      = (RateLimitTooLongError.init r g w m t l p).message ∧
    (RateLimitTooLongError.init r g w m t l p).message
      = "The request has been rejected, as you would be waiting for more than " ++
        "the max retry-after (" ++ toString m ++ ") on route '" ++
        r.render ++ "' [is_global=" ++ pyBoolRepr g ++ "]" :=
  ⟨rfl, rfl, rfl, rfl, rfl, rfl, rfl, rfl, rfl⟩

/-- Claim C6: constructing `GatewayServerClosedConnectionError` with reason
`s`, code `c` and can_reconnect `b` leaves all three readable unchanged,
its `__str__` renders as the server-closure message naming `c` and `s`, and
`can_reconnect = false` is exactly the marking under which the closure is
propagated to the caller instead of triggering a reconnect (spec-modelled
`handleServerClosure`). -/
theorem claim_C6_server_closed_connection (s : String) (c : Int) (b : Bool) :
    (GatewayServerClosedConnectionError.init s c b).reason = s ∧
    (GatewayServerClosedConnectionError.init s c b).code = c ∧
    (GatewayServerClosedConnectionError.init s c b).can_reconnect = b ∧
    (GatewayServerClosedConnectionError.init s c b).str
      = "Server closed connection with code " ++ toString c ++ " (" ++ s ++ ")" ∧
    (handleServerClosure (GatewayServerClosedConnectionError.init s c b)
        = ClosureAction.propagate ↔ b = false) := by
  refine ⟨rfl, rfl, rfl, rfl, ?_⟩
  cases b <;>
    simp [handleServerClosure, GatewayServerClosedConnectionError.init,
      GatewayError.init]

/-- Claim C9: for every `RateLimitTooLongError`, however constructed, the
`remaining` property returns 0. -/
theorem claim_C9_remaining_always_zero (e : RateLimitTooLongError) :
    e.remaining = 0 :=
  rfl

/-- Claim C8: the source assigns `self.deleted_messages = intents` in
`MissingIntentError.__init__`, so the `intents` attribute the claim
describes is never set: attribute lookup of `intents` fails (Python
`AttributeError`), the value is found under `deleted_messages` instead, and
`__str__` — which reads `self.intents` — fails with `AttributeError`
rather than listing the missing intents. -/
theorem claim_C8_missing_intent_attribute_bug (i : Nat) :
    MissingIntentError.getattr (MissingIntentError.init i) "intents" = none ∧
    MissingIntentError.getattr (MissingIntentError.init i) "deleted_messages"
      = some i ∧
    MissingIntentError.str (MissingIntentError.init i)
      = Except.error "AttributeError" :=
  ⟨rfl, rfl, rfl⟩

/-- Claim C10: for every `HTTPResponseError` constructed without a
non-empty message, `__str__` quotes exactly the first (at most 200)
characters of the rendered response body, appending `...` if and only if
the rendered body exceeds 200 characters; the quoted body segment never
exceeds 200 characters. -/
theorem claim_C10_str_truncates_body (url : String) (status : StatusV)
    (headers : Headers) (raw_body : String) (code : Int) :
    HTTPResponseError.str
        (HTTPResponseError.init url status headers raw_body code "")
      = status.nameValue ++ ":" ++
        (if code = 0 then "" else " (" ++ toString code ++ ")") ++
        " '" ++ pySlice raw_body 200 ++
        (if 200 < raw_body.length then "..." else "") ++
        "' for " ++ url ∧
    (pySlice raw_body 200).length ≤ 200 := by
  constructor
  · rfl
  · show (raw_body.data.take 200).length ≤ 200
    exact List.length_take_le 200 raw_body.data

/-- The positional construction written in `interrupt_handler` fails the
keyword-only binding for every signal number and name. -/
theorem constructInterruptPositional_err (signum : Int) (signame : String) :
    constructInterruptPositional signum signame
      = Except.error "TypeError: too many positional arguments" :=
  rfl

/-- Claim C1: the claim describes the intended behaviour — the handler
records a `HikariInterrupt` carrying the delivered signal's number and
name, raised when the body completes — but `interrupt_handler` line 84
passes `signum` and `signame` positionally to a keyword-only `__init__`
(`errors.py` line 97), so the construction raises `TypeError` for every
delivered signal and no `HikariInterrupt` is ever recorded; the keyword
form the signature demands would have produced exactly the claimed
attributes. -/
theorem claim_C1_interrupt_construction_type_error (signum : Int)
    (signame : String) :
    constructInterruptPositional signum signame
      = Except.error "TypeError: too many positional arguments" ∧
    (interrupt_handler
        { interrupt := none, exit_callback_called := false } signum signame).1.interrupt
      = none ∧
    (interrupt_handler
        { interrupt := none, exit_callback_called := false } signum signame).2.2
      = some typeErrorTooManyArgs ∧
    constructInterruptKeyword signum signame
      = Except.ok { signum := signum, signame := signame } := by
  refine ⟨constructInterruptPositional_err signum signame, ?_, ?_, rfl⟩
  · simp [interrupt_handler, constructInterruptPositional_err]
  · simp [interrupt_handler, constructInterruptPositional_err]

/-- The body runner under the positional-construction failure: a delivered
signal aborts the body with the handler's `TypeError`, leaving state and
effects untouched. -/
theorem runBody_cons_eq (st : HIState) (n : Int) (s : String)
    (rest : List BodyStep) (outcome : BodyOutcome) :
    runBody st (BodyStep.signal n s :: rest) outcome
      = (st, [], BodyOutcome.raises typeErrorTooManyArgs) := by
  simp [runBody, interrupt_handler, constructInterruptPositional_err]

/-- Claim C2 counterexample: with interrupts enabled, a body that raises a
(user) `KeyboardInterrupt` — an exception deriving only `BaseException` —
propagates it out of the manager with zero exit-callback invocations, so
the callback is not run to completion before the exception propagates. -/
theorem claim_C2_counterexample :
    handle_interrupts true [] (BodyOutcome.raises keyboardInterruptExn)
      = [Effect.raiseOut keyboardInterruptExn] ∧
    callbackCount
        (handle_interrupts true [] (BodyOutcome.raises keyboardInterruptExn))
      = 0 ∧
    callbackRunBeforePropagation
        (handle_interrupts true [] (BodyOutcome.raises keyboardInterruptExn))
      = false :=
  ⟨rfl, rfl, rfl⟩

/-- Claim C2 (amended): over one enabled `handle_interrupts` use the exit
callback is invoked at most once, whatever signals are delivered and
however the body ends; and when the body raises an exception deriving
`Exception` (exceptions deriving only `BaseException`, such as
`KeyboardInterrupt`, bypass the `except Exception` clause), the exit
callback is run to completion strictly before an exception propagates out
of the manager. -/
theorem claim_C2_callback_once_and_before_raise (steps : List BodyStep)
    (outcome : BodyOutcome) (e : PyExn) (h : e.isException = true) :
    callbackCount (handle_interrupts true steps outcome) ≤ 1 ∧
    callbackRunBeforePropagation
        (handle_interrupts true steps (BodyOutcome.raises e)) = true ∧
    propagatesOut (handle_interrupts true steps (BodyOutcome.raises e)) = true := by
  have hmain : ∀ oc : BodyOutcome,
      callbackCount (handle_interrupts true steps oc) ≤ 1 := by
    intro oc
    cases steps with
    | nil =>
        cases oc with
        | completes => decide
        | raises ex =>
            by_cases hex : ex.isException = true <;>
              simp [handle_interrupts, runBody, callbackCount, hex,
                Effect.isCallback, List.filter_cons, List.filter_nil]
    | cons s rest =>
        cases s with
        | signal n sn =>
            simp [handle_interrupts, runBody_cons_eq, callbackCount,
              typeErrorTooManyArgs, Effect.isCallback, List.filter_cons,
              List.filter_nil]
  have hraise : callbackRunBeforePropagation
        (handle_interrupts true steps (BodyOutcome.raises e)) = true ∧
      propagatesOut (handle_interrupts true steps (BodyOutcome.raises e)) = true := by
    cases steps with
    | nil =>
        constructor <;>
          simp [handle_interrupts, runBody, h, callbackRunBeforePropagation,
            propagatesOut, Effect.isRaiseOut, List.takeWhile]
    | cons s rest =>
        cases s with
        | signal n sn =>
            constructor <;>
              simp [handle_interrupts, runBody_cons_eq,
                callbackRunBeforePropagation, propagatesOut,
                typeErrorTooManyArgs, Effect.isRaiseOut, List.takeWhile]
  exact ⟨hmain outcome, hraise.1, hraise.2⟩

/-- Witness for the amended claim C2 at a concrete exception (`TypeError`,
which derives `Exception`) with no signals delivered. -/
theorem claim_C2_witness :
    typeErrorTooManyArgs.isException = true ∧
    (callbackCount
        (handle_interrupts true [] (BodyOutcome.raises typeErrorTooManyArgs)) ≤ 1 ∧
      callbackRunBeforePropagation
        (handle_interrupts true [] (BodyOutcome.raises typeErrorTooManyArgs)) = true ∧
      propagatesOut
        (handle_interrupts true [] (BodyOutcome.raises typeErrorTooManyArgs)) = true) :=
  ⟨rfl,
    claim_C2_callback_once_and_before_raise []
      (BodyOutcome.raises typeErrorTooManyArgs) typeErrorTooManyArgs rfl⟩

/-- Capacity is never altered by an acquisition attempt. -/
theorem Bucket.acquire_capacity (b : Bucket) (t : Nat) :
    (b.acquire t).2.capacity = b.capacity := by
  simp only [Bucket.acquire, Bucket.refresh]
  split <;> split <;> rfl

/-- One acquisition attempt that does not cross a reset keeps the sum of
the admission and the leftover budget at the previous budget. -/
theorem Bucket.acquire_no_reset (b : Bucket) (t : Nat)
    (hr : ¬ b.reset_at ≤ t) :
    ((if (b.acquire t).1 then 1 else 0) : Nat) + (b.acquire t).2.remaining
      = b.remaining := by
  simp only [Bucket.acquire, Bucket.refresh, if_neg hr]
  by_cases hp : 0 < b.remaining
  · simp only [if_pos hp]
    simp
    omega
  · simp only [if_neg hp]
    simp

/-- One acquisition attempt that crosses a reset replenishes to capacity
before (possibly) admitting, so the admission plus leftover budget is at
most the capacity. -/
theorem Bucket.acquire_reset (b : Bucket) (t : Nat) (hr : b.reset_at ≤ t) :
    ((if (b.acquire t).1 then 1 else 0) : Nat) + (b.acquire t).2.remaining
      ≤ b.capacity := by
  simp only [Bucket.acquire, Bucket.refresh, if_pos hr]
  by_cases hp : (0 : Nat) < b.capacity
  · simp only [if_pos hp]
    simp
    omega
  · simp only [if_neg hp]
    simp

/-- Invariant run of `runWindows`: if the admissions already counted in the
current window plus the budget still available cannot exceed the capacity,
then every per-window admitted count stays within the capacity. -/
theorem runWindows_bounded (ts : List Nat) :
    ∀ (b : Bucket) (cur cap : Nat), b.capacity = cap →
      cur + b.remaining ≤ cap →
      ((runWindows b ts cur).all (fun c => decide (c ≤ cap))) = true := by
  induction ts with
  | nil =>
      intro b cur cap hcap h
      simp only [runWindows, List.all_cons, List.all_nil, Bool.and_true,
        decide_eq_true_eq]
      omega
  | cons t rest ih =>
      intro b cur cap hcap h
      simp only [runWindows]
      by_cases hr : b.reset_at ≤ t
      · rw [if_pos hr]
        rw [List.all_cons]
        refine (Bool.and_eq_true _ _).mpr ⟨by simp only [decide_eq_true_eq]; omega, ?_⟩
        refine ih (b.acquire t).2 _ cap (by rw [Bucket.acquire_capacity, hcap]) ?_
        have := Bucket.acquire_reset b t hr
        omega
      · rw [if_neg hr]
        refine ih (b.acquire t).2 _ cap (by rw [Bucket.acquire_capacity, hcap]) ?_
        have := Bucket.acquire_no_reset b t hr
        omega

/-- Claim C7: for every sequence of requests directed at the same bucket,
the rate limiter admits at most `capacity` requests within any single
reset window — every per-window admitted count produced by `runWindows`
is bounded by the bucket's capacity, for any bucket whose current budget
does not exceed its capacity. -/
theorem claim_C7_bucket_window_capacity (b : Bucket) (ts : List Nat)
    (h : b.remaining ≤ b.capacity) :
    ((runWindows b ts 0).all (fun c => decide (c ≤ b.capacity))) = true :=
  runWindows_bounded ts b 0 b.capacity rfl (by omega)

/-- A concrete bucket for the claim C7 witness: capacity 2, full budget,
reset at time 5, 10-time-unit window. -/
def bucketExample : Bucket :=
  { capacity := 2, remaining := 2, reset_at := 5, period := 10 }

/-- Witness for claim C7: eleven requests hammered at the example bucket
across three reset windows never exceed two admissions per window. -/
theorem claim_C7_witness :
    bucketExample.remaining ≤ bucketExample.capacity ∧
    ((runWindows bucketExample [0, 0, 0, 0, 5, 5, 5, 15, 16, 17, 18] 0).all
        (fun c => decide (c ≤ bucketExample.capacity))) = true :=
  ⟨by decide,
    claim_C7_bucket_window_capacity bucketExample
      [0, 0, 0, 0, 5, 5, 5, 15, 16, 17, 18] (by decide)⟩

end Hikari
